import Mathlib

/-!
Metrics resolution of the QA dashboard (`src/src/App.js`).

A shallow embedding of `mapCSVColumns`, `defaultData`, the two `Papa.parse`
completion callbacks and the chart series `barChartData` and `pieData` of `Dashboard`.

JavaScript values are embedded as a tagged union.  Numbers are the rationals
they denote together with `NaN` and the two infinities; the rounding and the
overflow of IEEE-754 arithmetic are not modelled and the two zeros are identified.
Division by zero and the arithmetic of `NaN` and the infinities follow IEEE-754.
-/

namespace QADashboard

/-! ## JavaScript values -/

/-- A JavaScript number: a finite value, `NaN`, `Infinity` or `-Infinity`. -/
inductive JSNum where
  | fin (q : ℚ)
  | nan
  | posInf
  | negInf
  deriving DecidableEq

/-- A JavaScript value as it can occur in a cell of a parsed CSV row. -/
inductive Value where
  | undefined
  | null
  | bool (b : Bool)
  | num (x : JSNum)
  | str (s : String)
  deriving DecidableEq

/-- A parsed CSV row: an object from column names to cell values. -/
abbrev Row := List (String × Value)

/-- Property access `row[key]`: `undefined` when the key is missing. -/
def Row.get (row : Row) (key : String) : Value :=
  match row.lookup key with
  | some v => v
  | none => Value.undefined

/-- The number literal `n` of the source text. -/
def lit (n : ℕ) : Value := Value.num (JSNum.fin n)

/-- ToBoolean on numbers: `0` and `NaN` are falsy. -/
def JSNum.truthy : JSNum → Bool
  | JSNum.fin q => decide (q ≠ 0)
  | JSNum.nan => false
  | JSNum.posInf => true
  | JSNum.negInf => true

/-- ToBoolean: `undefined`, `null`, `false`, `0`, `NaN` and `""` are falsy. -/
def Value.truthy : Value → Bool
  | Value.undefined => false
  | Value.null => false
  | Value.bool b => b
  | Value.num x => x.truthy
  | Value.str s => decide (s ≠ "")

/-- The operator `a || b`: `a` when it is truthy, else `b`. -/
def jsOr (a b : Value) : Value := if a.truthy then a else b

instance : OrOp Value := ⟨jsOr⟩

/-! ## Numeric conversion of strings -/

/-- StrWhiteSpaceChar: white space and line terminators. -/
def isStrWhiteSpaceChar (c : Char) : Bool :=
  decide (c.toNat ∈ [0x9, 0xA, 0xB, 0xC, 0xD, 0x20, 0xA0, 0x1680, 0x2028, 0x2029,
    0x202F, 0x205F, 0x3000, 0xFEFF]) || (decide (0x2000 ≤ c.toNat) && decide (c.toNat ≤ 0x200A))

/-- Value of a digit character in a radix up to 16, when it is one. -/
def digitOf (c : Char) : Option ℕ :=
  if '0' ≤ c ∧ c ≤ '9' then some (c.toNat - '0'.toNat)
  else if 'a' ≤ c ∧ c ≤ 'f' then some (c.toNat - 'a'.toNat + 10)
  else if 'A' ≤ c ∧ c ≤ 'F' then some (c.toNat - 'A'.toNat + 10)
  else none

/-- Whether `c` is a digit of the given radix. -/
def isDigitIn (radix : ℕ) (c : Char) : Bool :=
  match digitOf c with
  | some d => decide (d < radix)
  | none => false

/-- Mathematical value of a run of digits in the given radix. -/
def digitsVal (radix : ℕ) (ds : List Char) : ℕ :=
  ds.foldl (fun n c => radix * n + (digitOf c).getD 0) 0

/-- An unsigned decimal literal as read: the digits of integer and fraction part
as one natural number, the number of fraction digits, and the exponent. -/
structure Decimal where
  mantissa : ℕ
  fracDigits : ℕ
  exponent : ℤ
  deriving DecidableEq

/-- Mathematical value of a decimal literal: `mantissa / 10 ^ fracDigits * 10 ^ exponent`. -/
def Decimal.value (d : Decimal) : ℚ :=
  if d.exponent < 0 then
    (d.mantissa : ℚ) / (10 : ℚ) ^ d.fracDigits / (10 : ℚ) ^ d.exponent.natAbs
  else (d.mantissa : ℚ) / (10 : ℚ) ^ d.fracDigits * (10 : ℚ) ^ d.exponent.natAbs

/-- A signed numeric literal as read. -/
inductive NumToken where
  | infinity (neg : Bool)
  | decimal (neg : Bool) (d : Decimal)
  deriving DecidableEq

/-- The number a signed literal denotes. -/
def NumToken.value : NumToken → JSNum
  | NumToken.infinity neg => if neg then JSNum.negInf else JSNum.posInf
  | NumToken.decimal neg d => JSNum.fin (if neg then -d.value else d.value)

/-- ExponentPart at the head of `cs`, when there is one: its value and the rest. -/
def scanExponent (cs : List Char) : ℤ × List Char :=
  match cs with
  | [] => (0, cs)
  | e :: t =>
    if e = 'e' ∨ e = 'E' then
      let signed : Bool × List Char :=
        match t with
        | '-' :: u => (true, u)
        | '+' :: u => (false, u)
        | _ => (false, t)
      let ds := signed.2.takeWhile (isDigitIn 10)
      if ds.isEmpty then (0, cs)
      else ((if signed.1 then -(digitsVal 10 ds : ℤ) else (digitsVal 10 ds : ℤ)),
        signed.2.dropWhile (isDigitIn 10))
    else (0, cs)

/-- Longest prefix of `cs` that is an unsigned decimal literal (digits, optional
fraction, optional exponent): the literal and the unread rest. -/
def scanDecimal (cs : List Char) : Option (Decimal × List Char) :=
  let ip := cs.takeWhile (isDigitIn 10)
  let r1 := cs.dropWhile (isDigitIn 10)
  let frac : List Char × List Char :=
    match r1 with
    | '.' :: t => (t.takeWhile (isDigitIn 10), t.dropWhile (isDigitIn 10))
    | _ => ([], r1)
  if ip.isEmpty && frac.1.isEmpty then none
  else
    let ex := scanExponent frac.2
    some ({ mantissa := digitsVal 10 (ip ++ frac.1), fracDigits := frac.1.length,
            exponent := ex.1 }, ex.2)

/-- Longest prefix of `cs` that is a StrDecimalLiteral (sign, then `Infinity` or
an unsigned decimal literal): the literal and the unread rest. -/
def scanSigned (cs : List Char) : Option (NumToken × List Char) :=
  let signed : Bool × List Char :=
    match cs with
    | '-' :: u => (true, u)
    | '+' :: u => (false, u)
    | _ => (false, cs)
  match signed.2 with
  | 'I' :: 'n' :: 'f' :: 'i' :: 'n' :: 'i' :: 't' :: 'y' :: rest =>
    some (NumToken.infinity signed.1, rest)
  | body =>
    match scanDecimal body with
    | some (d, rest) => some (NumToken.decimal signed.1 d, rest)
    | none => none

/-- The global `parseFloat` on a string: leading white space is skipped and the
longest numeric prefix is read; `NaN` when there is none. -/
def parseFloatStr (s : String) : JSNum :=
  match scanSigned (s.toList.dropWhile isStrWhiteSpaceChar) with
  | some (t, _) => t.value
  | none => JSNum.nan

/-- The global `parseFloat`: its argument is converted to a string first, so
`undefined`, `null` and booleans give `NaN` and a number reads back as itself. -/
def parseFloat : Value → JSNum
  | Value.undefined => JSNum.nan
  | Value.null => JSNum.nan
  | Value.bool _ => JSNum.nan
  | Value.num x => x
  | Value.str s => parseFloatStr s

/-- A non-decimal integer literal body: at least one digit, all of the radix. -/
def radixLiteral (radix : ℕ) (ds : List Char) : JSNum :=
  if !ds.isEmpty && ds.all (isDigitIn radix) then JSNum.fin (digitsVal radix ds) else JSNum.nan

/-- StringToNumber: the whole trimmed string must be a numeric literal; the
empty string is `0`. -/
def stringToNumber (s : String) : JSNum :=
  let cs := ((s.toList.dropWhile isStrWhiteSpaceChar).reverse.dropWhile isStrWhiteSpaceChar).reverse
  match cs with
  | [] => JSNum.fin 0
  | '0' :: 'x' :: t => radixLiteral 16 t
  | '0' :: 'X' :: t => radixLiteral 16 t
  | '0' :: 'o' :: t => radixLiteral 8 t
  | '0' :: 'O' :: t => radixLiteral 8 t
  | '0' :: 'b' :: t => radixLiteral 2 t
  | '0' :: 'B' :: t => radixLiteral 2 t
  | _ =>
    match scanSigned cs with
    | some (t, []) => t.value
    | _ => JSNum.nan

/-- ToNumber, as applied to the operands of `/` and `*`. -/
def toNumber : Value → JSNum
  | Value.undefined => JSNum.nan
  | Value.null => JSNum.fin 0
  | Value.bool b => JSNum.fin (if b then 1 else 0)
  | Value.num x => x
  | Value.str s => stringToNumber s

/-! ## Arithmetic -/

/-- Number division `x / y`. -/
def JSNum.div : JSNum → JSNum → JSNum
  | JSNum.nan, _ => JSNum.nan
  | _, JSNum.nan => JSNum.nan
  | JSNum.fin a, JSNum.fin b =>
    if b = 0 then (if a = 0 then JSNum.nan else if 0 < a then JSNum.posInf else JSNum.negInf)
    else JSNum.fin (a / b)
  | JSNum.fin _, _ => JSNum.fin 0
  | JSNum.posInf, JSNum.fin b => if b < 0 then JSNum.negInf else JSNum.posInf
  | JSNum.negInf, JSNum.fin b => if b < 0 then JSNum.posInf else JSNum.negInf
  | _, _ => JSNum.nan

/-- Number multiplication `x * y`. -/
def JSNum.mul : JSNum → JSNum → JSNum
  | JSNum.nan, _ => JSNum.nan
  | _, JSNum.nan => JSNum.nan
  | JSNum.fin a, JSNum.fin b => JSNum.fin (a * b)
  | JSNum.fin a, JSNum.posInf =>
    if a = 0 then JSNum.nan else if 0 < a then JSNum.posInf else JSNum.negInf
  | JSNum.fin a, JSNum.negInf =>
    if a = 0 then JSNum.nan else if 0 < a then JSNum.negInf else JSNum.posInf
  | JSNum.posInf, JSNum.fin b =>
    if b = 0 then JSNum.nan else if 0 < b then JSNum.posInf else JSNum.negInf
  | JSNum.negInf, JSNum.fin b =>
    if b = 0 then JSNum.nan else if 0 < b then JSNum.negInf else JSNum.posInf
  | JSNum.posInf, JSNum.posInf => JSNum.posInf
  | JSNum.negInf, JSNum.negInf => JSNum.posInf
  | JSNum.posInf, JSNum.negInf => JSNum.negInf
  | JSNum.negInf, JSNum.posInf => JSNum.negInf

/-- The expression `(a / b) * 100` on values. -/
def ratio100 (a b : Value) : Value :=
  Value.num (((toNumber a).div (toNumber b)).mul (JSNum.fin 100))

/-! ## `mapCSVColumns` and `defaultData` -/

/-- The object `columnMap` (and `defaultData`): the eleven metrics. -/
structure Metrics where
  totalCases : Value
  totalExecuted : Value
  totalPassed : Value
  totalFailed : Value
  needToRetest : Value
  yetToValidate : Value
  inProgress : Value
  executionRate : Value
  passRate : Value
  retestRate : Value
  validationRate : Value
  deriving DecidableEq

/-- The function `mapCSVColumns` of `Dashboard`. -/
def mapCSVColumns (row : Row) : Metrics :=
  let columnMap : Metrics :=
    { totalCases := row.get "Total Test Cases" ||| row.get "Total Cases" ||| row.get "Test Cases"
        ||| lit 144
      totalExecuted := row.get "Total Executed" ||| row.get "Executed" ||| row.get "Total Run"
        ||| lit 132
      totalPassed := row.get "Total Passed" ||| row.get "Passed" ||| row.get "Pass" ||| lit 117
      totalFailed := row.get "Total Failed" ||| row.get "Failed" ||| row.get "Fail" ||| lit 6
      needToRetest := row.get "Need To Retest" ||| row.get "Need to Retest" ||| row.get "Retest"
        ||| row.get "To Retest" ||| lit 10
      yetToValidate := row.get "Yet to validate" ||| row.get "Yet To Validate"
        ||| row.get "To Validate" ||| row.get "Pending Validation" ||| lit 6
      inProgress := row.get "Total In Progress" ||| row.get "In Progress" ||| row.get "Progress"
        ||| row.get "Running" ||| lit 2
      executionRate := Value.num (parseFloat
        (row.get "% Execution" ||| row.get "Execution Rate" ||| row.get "Execution %")) ||| lit 0
      passRate := Value.num (parseFloat
        (row.get "% Passed" ||| row.get "Pass Rate" ||| row.get "Pass %")) ||| lit 0
      retestRate := Value.undefined
      validationRate := Value.undefined }
  let columnMap : Metrics :=
    if !columnMap.executionRate.truthy && columnMap.totalCases.truthy then
      { columnMap with executionRate := ratio100 columnMap.totalExecuted columnMap.totalCases }
    else columnMap
  let columnMap : Metrics :=
    if !columnMap.passRate.truthy && columnMap.totalExecuted.truthy then
      { columnMap with passRate := ratio100 columnMap.totalPassed columnMap.totalExecuted }
    else columnMap
  let columnMap : Metrics :=
    { columnMap with retestRate := ratio100 columnMap.needToRetest columnMap.totalCases }
  { columnMap with validationRate := ratio100 columnMap.yetToValidate columnMap.totalCases }

/-- The constant `defaultData` of `Dashboard`. -/
def defaultData : Metrics :=
  { totalCases := lit 144
    totalExecuted := lit 132
    totalPassed := lit 117
    totalFailed := lit 6
    needToRetest := lit 10
    yetToValidate := lit 6
    inProgress := lit 2
    executionRate := Value.num (JSNum.fin (9167 / 100))
    passRate := Value.num (JSNum.fin (8864 / 100))
    retestRate := Value.num (JSNum.fin (694 / 100))
    validationRate := Value.num (JSNum.fin (417 / 100)) }

/-! ## The alias table -/

/-- The seven count fields of the metrics. -/
inductive CountField where
  | totalCases
  | totalExecuted
  | totalPassed
  | totalFailed
  | needToRetest
  | yetToValidate
  | inProgress
  deriving DecidableEq

/-- Column names accepted for a count field, in the order `mapCSVColumns` tries them. -/
def CountField.aliases : CountField → List String
  | CountField.totalCases => ["Total Test Cases", "Total Cases", "Test Cases"]
  | CountField.totalExecuted => ["Total Executed", "Executed", "Total Run"]
  | CountField.totalPassed => ["Total Passed", "Passed", "Pass"]
  | CountField.totalFailed => ["Total Failed", "Failed", "Fail"]
  | CountField.needToRetest => ["Need To Retest", "Need to Retest", "Retest", "To Retest"]
  | CountField.yetToValidate =>
    ["Yet to validate", "Yet To Validate", "To Validate", "Pending Validation"]
  | CountField.inProgress => ["Total In Progress", "In Progress", "Progress", "Running"]

/-- The literal that closes the `||` chain of a count field. -/
def CountField.default : CountField → ℕ
  | CountField.totalCases => 144
  | CountField.totalExecuted => 132
  | CountField.totalPassed => 117
  | CountField.totalFailed => 6
  | CountField.needToRetest => 10
  | CountField.yetToValidate => 6
  | CountField.inProgress => 2

/-- Read a count field off a metrics object. -/
def CountField.of : CountField → Metrics → Value
  | CountField.totalCases, m => m.totalCases
  | CountField.totalExecuted, m => m.totalExecuted
  | CountField.totalPassed, m => m.totalPassed
  | CountField.totalFailed, m => m.totalFailed
  | CountField.needToRetest, m => m.needToRetest
  | CountField.yetToValidate, m => m.yetToValidate
  | CountField.inProgress, m => m.inProgress

/-- Column names accepted for an explicit execution rate, in priority order. -/
def executionRateAliases : List String := ["% Execution", "Execution Rate", "Execution %"]

/-- Column names accepted for an explicit pass rate, in priority order. -/
def passRateAliases : List String := ["% Passed", "Pass Rate", "Pass %"]

/-- Every column name `mapCSVColumns` reads. -/
def recognisedColumns : List String :=
  CountField.totalCases.aliases ++ CountField.totalExecuted.aliases
    ++ CountField.totalPassed.aliases ++ CountField.totalFailed.aliases
    ++ CountField.needToRetest.aliases ++ CountField.yetToValidate.aliases
    ++ CountField.inProgress.aliases ++ executionRateAliases ++ passRateAliases

/-- Table-driven resolution: the first truthy candidate, else the fallback. -/
def firstTruthy : List Value → Value → Value
  | [], d => d
  | v :: vs, d => if v.truthy then v else firstTruthy vs d

/-- A cell that holds no value: the key is missing or the cell is `null`. -/
def Value.isAbsent : Value → Bool
  | Value.undefined => true
  | Value.null => true
  | _ => false

/-! ## The loaders -/

/-- The object `results` handed to a `complete` callback of `Papa.parse`. -/
structure ParseResults where
  data : List Row
  errors : List String

/-- The React state of `Dashboard` that the loaders write; `data` starts as `null`. -/
structure DashboardState where
  data : Option Metrics
  loading : Bool
  error : Option String
  csvFound : Bool

/-- The expression `data || defaultData`: the metrics the dashboard displays. -/
def DashboardState.currentData (s : DashboardState) : Metrics :=
  match s.data with
  | some m => m
  | none => defaultData

/-- The `complete` callback of `loadCSVData` (the fetched `/dashboard.csv`). -/
def loadCSVDataComplete (s : DashboardState) (results : ParseResults) : DashboardState :=
  match results.data with
  | row :: _ => { s with data := some (mapCSVColumns row), loading := false }
  | [] => { s with data := some defaultData, loading := false }

/-- The `complete` callback of `handleFileUpload` (a manually uploaded file). -/
def handleFileUploadComplete (s : DashboardState) (results : ParseResults) : DashboardState :=
  match results.data with
  | row :: _ => { s with data := some (mapCSVColumns row), csvFound := true, loading := false }
  | [] => { s with loading := false }

/-! ## The chart series -/

/-- Number subtraction `x - y`. -/
def JSNum.sub : JSNum → JSNum → JSNum
  | JSNum.nan, _ => JSNum.nan
  | _, JSNum.nan => JSNum.nan
  | JSNum.fin a, JSNum.fin b => JSNum.fin (a - b)
  | JSNum.fin _, JSNum.posInf => JSNum.negInf
  | JSNum.fin _, JSNum.negInf => JSNum.posInf
  | JSNum.posInf, JSNum.fin _ => JSNum.posInf
  | JSNum.negInf, JSNum.fin _ => JSNum.negInf
  | JSNum.posInf, JSNum.negInf => JSNum.posInf
  | JSNum.negInf, JSNum.posInf => JSNum.negInf
  | JSNum.posInf, JSNum.posInf => JSNum.nan
  | JSNum.negInf, JSNum.negInf => JSNum.nan

/-- The function `Math.max` on two numbers: `NaN` when either is `NaN`. -/
def mathMax : JSNum → JSNum → JSNum
  | JSNum.nan, _ => JSNum.nan
  | _, JSNum.nan => JSNum.nan
  | JSNum.posInf, _ => JSNum.posInf
  | _, JSNum.posInf => JSNum.posInf
  | JSNum.negInf, y => y
  | x, JSNum.negInf => x
  | JSNum.fin a, JSNum.fin b => JSNum.fin (max a b)

/-- One entry of a chart series. -/
structure ChartEntry where
  name : String
  value : Value
  color : String
  deriving DecidableEq

/-- The series `barChartData` over `currentData`. -/
def barChartData (currentData : Metrics) : List ChartEntry :=
  [{ name := "Passed", value := currentData.totalPassed, color := "#10B981" },
   { name := "Failed", value := currentData.totalFailed, color := "#EF4444" },
   { name := "In Progress", value := currentData.inProgress, color := "#F59E0B" },
   { name := "Need to Retest", value := currentData.needToRetest, color := "#8B5CF6" },
   { name := "Yet to Validate", value := currentData.yetToValidate, color := "#F97316" },
   { name := "Pending",
     value := Value.num (mathMax (JSNum.fin 0)
       (((toNumber currentData.totalCases).sub (toNumber currentData.totalExecuted)).sub
         (toNumber currentData.yetToValidate))),
     color := "#6B7280" }]

/-- The series `pieData` over `currentData`. -/
def pieData (currentData : Metrics) : List ChartEntry :=
  [{ name := "Passed", value := currentData.totalPassed, color := "#10B981" },
   { name := "Failed", value := currentData.totalFailed, color := "#EF4444" },
   { name := "In Progress", value := currentData.inProgress, color := "#F59E0B" },
   { name := "Need to Retest", value := currentData.needToRetest, color := "#8B5CF6" },
   { name := "Yet to Validate", value := currentData.yetToValidate, color := "#F97316" },
   { name := "Pending",
     value := Value.num (mathMax (JSNum.fin 0)
       (((toNumber currentData.totalCases).sub (toNumber currentData.totalExecuted)).sub
         (toNumber currentData.yetToValidate))),
     color := "#6B7280" }]

/-- The value a series shows under a category name, when the category is listed. -/
def chartValue (series : List ChartEntry) (name : String) : Option Value :=
  match series.find? (fun entry => entry.name == name) with
  | some entry => some entry.value
  | none => none

/-- A value that is a number below zero. -/
def Value.isNegative : Value → Bool
  | Value.num (JSNum.fin q) => decide (q < 0)
  | Value.num JSNum.negInf => true
  | _ => false

/-- A cell that is missing, `null` or a number. -/
def Value.isNumberOrAbsent : Value → Bool
  | Value.undefined => true
  | Value.null => true
  | Value.num _ => true
  | _ => false

/-- Metrics with the given total, executed and to-validate counts. -/
def metricsWith (c e v : ℚ) : Metrics :=
  { defaultData with
    totalCases := Value.num (JSNum.fin c)
    totalExecuted := Value.num (JSNum.fin e)
    yetToValidate := Value.num (JSNum.fin v) }

/-! ## Sample records -/

/-- Scenario A: the four main counts, nothing else. -/
def scenarioA : Row :=
  [("Total Test Cases", lit 100), ("Total Executed", lit 80), ("Total Passed", lit 70),
    ("Total Failed", lit 10)]

/-- Scenario C: only an explicit pass rate, as a string. -/
def scenarioC : Row := [("Pass %", Value.str "95")]

/-- An unparsable first execution-rate column followed by a numeric second one. -/
def unparsableFirstRate : Row := [("% Execution", Value.str "abc"), ("Execution Rate", lit 95)]

/-- An explicit execution rate with a percent sign, under the last alias. -/
def percentSuffixedRate : Row := [("% Execution", Value.null), ("Execution %", Value.str "91.5%")]

/-- A `Total Test Cases` cell written `+0`, which dynamic typing leaves a string. -/
def plusZeroTotal : Row := [("Total Test Cases", Value.str "+0")]

/-- A `Total Executed` cell written `+0`, which dynamic typing leaves a string. -/
def plusZeroExecuted : Row := [("Total Executed", Value.str "+0")]

/-- A `Total Test Cases` cell holding a string that is no number. -/
def unparsableTotal : Row := [("Total Test Cases", Value.str "abc"), ("Total Cases", lit 50)]

/-- A `Total Test Cases` cell holding a numeric string. -/
def numericStringTotal : Row := [("Total Test Cases", Value.str "100")]

/-- A record with exactly the four main counts `c`, `e`, `p`, `f`. -/
def fourCounts (c e p f : ℚ) : Row :=
  [("Total Test Cases", Value.num (JSNum.fin c)), ("Total Executed", Value.num (JSNum.fin e)),
    ("Total Passed", Value.num (JSNum.fin p)), ("Total Failed", Value.num (JSNum.fin f))]

/-- What `mapCSVColumns` computes when no recognised column is there: the default counts
with the four rates as unrounded ratios. -/
def unroundedDefaults : Metrics :=
  { defaultData with
    executionRate := Value.num (JSNum.fin (275 / 3))
    passRate := Value.num (JSNum.fin (975 / 11))
    retestRate := Value.num (JSNum.fin (125 / 18))
    validationRate := Value.num (JSNum.fin (25 / 6)) }

/-- A negative `Total Failed` cell. -/
def negativeFailed : Row := [("Total Failed", Value.num (JSNum.fin (-5)))]

/-- A dashboard that shows the metrics of scenario A, with an upload being parsed. -/
def showingScenarioA : DashboardState :=
  { data := some (mapCSVColumns scenarioA), loading := true, error := none, csvFound := true }

/-- Parse results with zero data rows. -/
def noRows : ParseResults := { data := [], errors := [] }

/-- An integer greater than or equal to 0. -/
def Value.isNonNegInt : Value → Bool
  | Value.num (JSNum.fin q) => decide (0 ≤ q) && decide (q.den = 1)
  | _ => false

/-- Two finite numbers less than `tol` apart. -/
def Value.within (tol : ℚ) : Value → Value → Bool
  | Value.num (JSNum.fin x), Value.num (JSNum.fin y) => decide (|x - y| < tol)
  | _, _ => false

/-- A zero `Total Failed` cell, alone. -/
def zeroFailed : Row := [("Total Failed", lit 0)]

/-- Zero under the first two aliases of `totalCases`, 70 under the third. -/
def zerosThenSeventy : Row :=
  [("Total Test Cases", lit 0), ("Total Cases", lit 0), ("Test Cases", lit 70)]

/-! ## Basic facts -/

theorem hOr_eq (a b : Value) : (a ||| b) = if a.truthy then a else b := rfl

theorem lit_truthy {n : ℕ} (h : n ≠ 0) : (lit n).truthy = true := by
  simp [lit, Value.truthy, JSNum.truthy, h]

theorem hOr_truthy_of_right {a b : Value} (h : b.truthy = true) : (a ||| b).truthy = true := by
  rw [hOr_eq]
  split_ifs with ha
  · exact ha
  · exact h

theorem get_of_lookup_none {row : Row} {k : String} (h : row.lookup k = none) :
    row.get k = Value.undefined := by
  simp [Row.get, h]

theorem firstTruthy3 (a b c d : Value) : (a ||| b ||| c ||| d) = firstTruthy [a, b, c] d := by
  simp only [hOr_eq, firstTruthy]
  split_ifs <;> rfl

theorem firstTruthy4 (a b c d e : Value) :
    (a ||| b ||| c ||| d ||| e) = firstTruthy [a, b, c, d] e := by
  simp only [hOr_eq, firstTruthy]
  split_ifs <;> rfl

theorem firstTruthy_split (g : String → Value) (d : Value) (a : String) (post : List String) :
    ∀ pre : List String, (∀ b ∈ pre, (g b).truthy = false) → (g a).truthy = true →
      firstTruthy ((pre ++ a :: post).map g) d = g a
  | [], _, ha => by simp [firstTruthy, ha]
  | b :: pre, hpre, ha => by
    have hb : (g b).truthy = false := hpre b (List.mem_cons_self b pre)
    have ih := firstTruthy_split g d a post pre
      (fun c hc => hpre c (List.mem_cons_of_mem b hc)) ha
    simpa [firstTruthy, hb] using ih

theorem firstTruthy_all_falsy (d : Value) :
    ∀ vs : List Value, (∀ v ∈ vs, v.truthy = false) → firstTruthy vs d = d
  | [], _ => rfl
  | v :: vs, h => by
    have hv : v.truthy = false := h v (List.mem_cons_self v vs)
    have ih := firstTruthy_all_falsy d vs (fun w hw => h w (List.mem_cons_of_mem v hw))
    simpa [firstTruthy, hv] using ih

/-! ## Projections of `mapCSVColumns` -/

theorem mapCSVColumns_totalCases (row : Row) : (mapCSVColumns row).totalCases =
    (row.get "Total Test Cases" ||| row.get "Total Cases" ||| row.get "Test Cases"
      ||| lit 144) := by
  unfold mapCSVColumns
  dsimp only
  split_ifs <;> rfl

theorem mapCSVColumns_totalExecuted (row : Row) : (mapCSVColumns row).totalExecuted =
    (row.get "Total Executed" ||| row.get "Executed" ||| row.get "Total Run" ||| lit 132) := by
  unfold mapCSVColumns
  dsimp only
  split_ifs <;> rfl

theorem mapCSVColumns_totalPassed (row : Row) : (mapCSVColumns row).totalPassed =
    (row.get "Total Passed" ||| row.get "Passed" ||| row.get "Pass" ||| lit 117) := by
  unfold mapCSVColumns
  dsimp only
  split_ifs <;> rfl

theorem mapCSVColumns_totalFailed (row : Row) : (mapCSVColumns row).totalFailed =
    (row.get "Total Failed" ||| row.get "Failed" ||| row.get "Fail" ||| lit 6) := by
  unfold mapCSVColumns
  dsimp only
  split_ifs <;> rfl

theorem mapCSVColumns_needToRetest (row : Row) : (mapCSVColumns row).needToRetest =
    (row.get "Need To Retest" ||| row.get "Need to Retest" ||| row.get "Retest"
      ||| row.get "To Retest" ||| lit 10) := by
  unfold mapCSVColumns
  dsimp only
  split_ifs <;> rfl

theorem mapCSVColumns_yetToValidate (row : Row) : (mapCSVColumns row).yetToValidate =
    (row.get "Yet to validate" ||| row.get "Yet To Validate" ||| row.get "To Validate"
      ||| row.get "Pending Validation" ||| lit 6) := by
  unfold mapCSVColumns
  dsimp only
  split_ifs <;> rfl

theorem mapCSVColumns_inProgress (row : Row) : (mapCSVColumns row).inProgress =
    (row.get "Total In Progress" ||| row.get "In Progress" ||| row.get "Progress"
      ||| row.get "Running" ||| lit 2) := by
  unfold mapCSVColumns
  dsimp only
  split_ifs <;> rfl

/-- The `||` chain of each count field is the table-driven resolution over its aliases. -/
theorem count_resolve (row : Row) (f : CountField) :
    f.of (mapCSVColumns row) = firstTruthy (f.aliases.map row.get) (lit f.default) := by
  cases f
  · simp only [CountField.of, CountField.aliases, CountField.default, List.map,
      mapCSVColumns_totalCases, firstTruthy3]
  · simp only [CountField.of, CountField.aliases, CountField.default, List.map,
      mapCSVColumns_totalExecuted, firstTruthy3]
  · simp only [CountField.of, CountField.aliases, CountField.default, List.map,
      mapCSVColumns_totalPassed, firstTruthy3]
  · simp only [CountField.of, CountField.aliases, CountField.default, List.map,
      mapCSVColumns_totalFailed, firstTruthy3]
  · simp only [CountField.of, CountField.aliases, CountField.default, List.map,
      mapCSVColumns_needToRetest, firstTruthy4]
  · simp only [CountField.of, CountField.aliases, CountField.default, List.map,
      mapCSVColumns_yetToValidate, firstTruthy4]
  · simp only [CountField.of, CountField.aliases, CountField.default, List.map,
      mapCSVColumns_inProgress, firstTruthy4]

theorem default_ne_zero (f : CountField) : f.default ≠ 0 := by
  cases f <;> decide

/-- Every resolved count is truthy: a falsy cell never survives the `||` chain. -/
theorem count_truthy (row : Row) (f : CountField) : (f.of (mapCSVColumns row)).truthy = true := by
  rw [count_resolve]
  generalize f.aliases.map row.get = vs
  induction vs with
  | nil => exact lit_truthy (default_ne_zero f)
  | cons v vs ih =>
    by_cases hv : v.truthy = true
    · simp [firstTruthy, hv]
    · simpa [firstTruthy, hv] using ih

theorem num_or_zero (x : JSNum) :
    (Value.num x ||| lit 0) = if x.truthy then Value.num x else lit 0 := rfl

theorem num_or_zero_truthy (x : JSNum) : (Value.num x ||| lit 0).truthy = x.truthy := by
  rw [num_or_zero]
  split_ifs with h
  · simp [Value.truthy, h]
  · simp only [Bool.not_eq_true] at h
    rw [h]
    simp [lit, Value.truthy, JSNum.truthy]

theorem mapCSVColumns_executionRate_raw (row : Row) : (mapCSVColumns row).executionRate =
    if (!(Value.num (parseFloat
          (row.get "% Execution" ||| row.get "Execution Rate" ||| row.get "Execution %"))
          ||| lit 0).truthy && (mapCSVColumns row).totalCases.truthy) = true then
      ratio100 (mapCSVColumns row).totalExecuted (mapCSVColumns row).totalCases
    else Value.num (parseFloat
          (row.get "% Execution" ||| row.get "Execution Rate" ||| row.get "Execution %"))
          ||| lit 0 := by
  rw [mapCSVColumns_totalCases, mapCSVColumns_totalExecuted]
  unfold mapCSVColumns
  dsimp only
  split_ifs <;> rfl

theorem mapCSVColumns_passRate_raw (row : Row) : (mapCSVColumns row).passRate =
    if (!(Value.num (parseFloat
          (row.get "% Passed" ||| row.get "Pass Rate" ||| row.get "Pass %"))
          ||| lit 0).truthy && (mapCSVColumns row).totalExecuted.truthy) = true then
      ratio100 (mapCSVColumns row).totalPassed (mapCSVColumns row).totalExecuted
    else Value.num (parseFloat
          (row.get "% Passed" ||| row.get "Pass Rate" ||| row.get "Pass %"))
          ||| lit 0 := by
  rw [mapCSVColumns_totalPassed, mapCSVColumns_totalExecuted]
  unfold mapCSVColumns
  dsimp only
  split_ifs <;> rfl

/-- The guard on `totalCases` never blocks: the explicit rate is kept when it is truthy
and the ratio is taken otherwise. -/
theorem mapCSVColumns_executionRate (row : Row) : (mapCSVColumns row).executionRate =
    if (parseFloat (row.get "% Execution" ||| row.get "Execution Rate"
          ||| row.get "Execution %")).truthy = true then
      Value.num (parseFloat
        (row.get "% Execution" ||| row.get "Execution Rate" ||| row.get "Execution %"))
    else ratio100 (mapCSVColumns row).totalExecuted (mapCSVColumns row).totalCases := by
  rw [mapCSVColumns_executionRate_raw, num_or_zero_truthy,
    show (mapCSVColumns row).totalCases.truthy = true from count_truthy row CountField.totalCases,
    num_or_zero]
  split_ifs with h1 h2 h2 <;> simp_all

/-- The guard on `totalExecuted` never blocks either. -/
theorem mapCSVColumns_passRate (row : Row) : (mapCSVColumns row).passRate =
    if (parseFloat (row.get "% Passed" ||| row.get "Pass Rate"
          ||| row.get "Pass %")).truthy = true then
      Value.num (parseFloat (row.get "% Passed" ||| row.get "Pass Rate" ||| row.get "Pass %"))
    else ratio100 (mapCSVColumns row).totalPassed (mapCSVColumns row).totalExecuted := by
  rw [mapCSVColumns_passRate_raw, num_or_zero_truthy,
    show (mapCSVColumns row).totalExecuted.truthy = true from
      count_truthy row CountField.totalExecuted,
    num_or_zero]
  split_ifs with h1 h2 h2 <;> simp_all

theorem mapCSVColumns_retestRate (row : Row) : (mapCSVColumns row).retestRate =
    ratio100 (mapCSVColumns row).needToRetest (mapCSVColumns row).totalCases := by
  rw [mapCSVColumns_totalCases, mapCSVColumns_needToRetest]
  unfold mapCSVColumns
  dsimp only
  split_ifs <;> rfl

theorem mapCSVColumns_validationRate (row : Row) : (mapCSVColumns row).validationRate =
    ratio100 (mapCSVColumns row).yetToValidate (mapCSVColumns row).totalCases := by
  rw [mapCSVColumns_totalCases, mapCSVColumns_yetToValidate]
  unfold mapCSVColumns
  dsimp only
  split_ifs <;> rfl

theorem parseFloat_falsy {v : Value} (h : v.truthy = false) : (parseFloat v).truthy = false := by
  cases v with
  | undefined => rfl
  | null => rfl
  | bool b => rfl
  | num x => simpa [Value.truthy, parseFloat] using h
  | str s =>
    have hs : s = "" := by simpa [Value.truthy] using h
    subst hs
    decide

theorem hOr3_split (g : String → Value) (a b c : String) (pre post : List String) (x : String)
    (hsplit : [a, b, c] = pre ++ x :: post) (hpre : ∀ y ∈ pre, (g y).truthy = false)
    (hx : (g x).truthy = true) : (g a ||| g b ||| g c) = g x := by
  rcases pre with _ | ⟨p, _ | ⟨q, _ | ⟨r, pre⟩⟩⟩
  · simp only [List.nil_append, List.cons.injEq] at hsplit
    obtain ⟨rfl, -⟩ := hsplit
    simp [hOr_eq, hx]
  · simp only [List.cons_append, List.nil_append, List.cons.injEq] at hsplit
    obtain ⟨rfl, rfl, -⟩ := hsplit
    have h1 := hpre a (by simp)
    simp [hOr_eq, h1, hx]
  · simp only [List.cons_append, List.nil_append, List.cons.injEq] at hsplit
    obtain ⟨rfl, rfl, rfl, -⟩ := hsplit
    have h1 := hpre a (by simp)
    have h2 := hpre b (by simp)
    simp [hOr_eq, h1, h2]
  · simp at hsplit

theorem hOr3_falsy (a b c : Value) (ha : a.truthy = false) (hb : b.truthy = false)
    (hc : c.truthy = false) : (a ||| b ||| c).truthy = false := by
  simp [hOr_eq, ha, hb, hc]

theorem count_congr {row row' : Row} (f : CountField)
    (h : ∀ a ∈ f.aliases, row'.get a = row.get a) :
    f.of (mapCSVColumns row') = f.of (mapCSVColumns row) := by
  rw [count_resolve, count_resolve]
  congr 1
  exact List.map_congr_left h

theorem ratio100_fin (a b : ℚ) (hb : b ≠ 0) :
    ratio100 (Value.num (JSNum.fin a)) (Value.num (JSNum.fin b))
      = Value.num (JSNum.fin (a / b * 100)) := by
  simp [ratio100, toNumber, JSNum.div, JSNum.mul, hb]

theorem firstTruthy_induct (P : Value → Prop) (d : Value) (hd : P d) :
    ∀ vs : List Value, (∀ v ∈ vs, v.truthy = true → P v) → P (firstTruthy vs d)
  | [], _ => hd
  | v :: vs, h => by
    by_cases hv : v.truthy = true
    · simpa [firstTruthy, hv] using h v (List.mem_cons_self v vs) hv
    · simpa [firstTruthy, hv] using
        firstTruthy_induct P d hd vs (fun w hw => h w (List.mem_cons_of_mem v hw))

/-- Only the recognised columns are read. -/
theorem mapCSVColumns_congr {row row' : Row}
    (h : ∀ a ∈ recognisedColumns, row'.get a = row.get a) :
    mapCSVColumns row' = mapCSVColumns row := by
  have e0 := h "Total Test Cases" (by decide)
  have e1 := h "Total Cases" (by decide)
  have e2 := h "Test Cases" (by decide)
  have e3 := h "Total Executed" (by decide)
  have e4 := h "Executed" (by decide)
  have e5 := h "Total Run" (by decide)
  have e6 := h "Total Passed" (by decide)
  have e7 := h "Passed" (by decide)
  have e8 := h "Pass" (by decide)
  have e9 := h "Total Failed" (by decide)
  have e10 := h "Failed" (by decide)
  have e11 := h "Fail" (by decide)
  have e12 := h "Need To Retest" (by decide)
  have e13 := h "Need to Retest" (by decide)
  have e14 := h "Retest" (by decide)
  have e15 := h "To Retest" (by decide)
  have e16 := h "Yet to validate" (by decide)
  have e17 := h "Yet To Validate" (by decide)
  have e18 := h "To Validate" (by decide)
  have e19 := h "Pending Validation" (by decide)
  have e20 := h "Total In Progress" (by decide)
  have e21 := h "In Progress" (by decide)
  have e22 := h "Progress" (by decide)
  have e23 := h "Running" (by decide)
  have e24 := h "% Execution" (by decide)
  have e25 := h "Execution Rate" (by decide)
  have e26 := h "Execution %" (by decide)
  have e27 := h "% Passed" (by decide)
  have e28 := h "Pass Rate" (by decide)
  have e29 := h "Pass %" (by decide)
  unfold mapCSVColumns
  simp only [e0, e1, e2, e3, e4, e5, e6, e7, e8, e9, e10, e11, e12, e13, e14, e15, e16, e17,
    e18, e19, e20, e21, e22, e23, e24, e25, e26, e27, e28, e29]

theorem mapCSVColumns_nil : mapCSVColumns [] = unroundedDefaults := by
  have h1 : (mapCSVColumns []).executionRate = Value.num (JSNum.fin (275 / 3)) := by
    have hx : parseFloat (Row.get [] "% Execution" ||| Row.get [] "Execution Rate"
        ||| Row.get [] "Execution %") = JSNum.nan := by decide
    have a : (mapCSVColumns []).totalExecuted = lit 132 := by decide
    have b : (mapCSVColumns []).totalCases = lit 144 := by decide
    rw [mapCSVColumns_executionRate, hx, a, b]
    simp only [JSNum.truthy, lit]
    rw [if_neg (by simp), ratio100_fin _ _ (by norm_num)]
    norm_num
  have h2 : (mapCSVColumns []).passRate = Value.num (JSNum.fin (975 / 11)) := by
    have hx : parseFloat (Row.get [] "% Passed" ||| Row.get [] "Pass Rate"
        ||| Row.get [] "Pass %") = JSNum.nan := by decide
    have a : (mapCSVColumns []).totalPassed = lit 117 := by decide
    have b : (mapCSVColumns []).totalExecuted = lit 132 := by decide
    rw [mapCSVColumns_passRate, hx, a, b]
    simp only [JSNum.truthy, lit]
    rw [if_neg (by simp), ratio100_fin _ _ (by norm_num)]
    norm_num
  have h3 : (mapCSVColumns []).retestRate = Value.num (JSNum.fin (125 / 18)) := by
    have a : (mapCSVColumns []).needToRetest = lit 10 := by decide
    have b : (mapCSVColumns []).totalCases = lit 144 := by decide
    rw [mapCSVColumns_retestRate, a, b]
    simp only [lit]
    rw [ratio100_fin _ _ (by norm_num)]
    norm_num
  have h4 : (mapCSVColumns []).validationRate = Value.num (JSNum.fin (25 / 6)) := by
    have a : (mapCSVColumns []).yetToValidate = lit 6 := by decide
    have b : (mapCSVColumns []).totalCases = lit 144 := by decide
    rw [mapCSVColumns_validationRate, a, b]
    simp only [lit]
    rw [ratio100_fin _ _ (by norm_num)]
    norm_num
  have c1 : (mapCSVColumns []).totalCases = lit 144 := by decide
  have c2 : (mapCSVColumns []).totalExecuted = lit 132 := by decide
  have c3 : (mapCSVColumns []).totalPassed = lit 117 := by decide
  have c4 : (mapCSVColumns []).totalFailed = lit 6 := by decide
  have c5 : (mapCSVColumns []).needToRetest = lit 10 := by decide
  have c6 : (mapCSVColumns []).yetToValidate = lit 6 := by decide
  have c7 : (mapCSVColumns []).inProgress = lit 2 := by decide
  generalize mapCSVColumns [] = m at *
  cases m
  simp only at h1 h2 h3 h4 c1 c2 c3 c4 c5 c6 c7
  subst h1 h2 h3 h4 c1 c2 c3 c4 c5 c6 c7
  rfl

theorem mapCSVColumns_fourCounts (c e p f : ℚ) (hc : c ≠ 0) (he : e ≠ 0) (hp : p ≠ 0)
    (hf : f ≠ 0) :
    mapCSVColumns (fourCounts c e p f) =
      { totalCases := Value.num (JSNum.fin c)
        totalExecuted := Value.num (JSNum.fin e)
        totalPassed := Value.num (JSNum.fin p)
        totalFailed := Value.num (JSNum.fin f)
        needToRetest := lit 10
        yetToValidate := lit 6
        inProgress := lit 2
        executionRate := Value.num (((JSNum.fin e).div (JSNum.fin c)).mul (JSNum.fin 100))
        passRate := Value.num (((JSNum.fin p).div (JSNum.fin e)).mul (JSNum.fin 100))
        retestRate := Value.num (((JSNum.fin 10).div (JSNum.fin c)).mul (JSNum.fin 100))
        validationRate := Value.num (((JSNum.fin 6).div (JSNum.fin c)).mul (JSNum.fin 100)) } := by
  simp [mapCSVColumns, fourCounts, Row.get, List.lookup, hOr_eq, Value.truthy, JSNum.truthy,
    parseFloat, lit, ratio100, toNumber, hc, he, hp, hf]

theorem lit_isNonNegInt (n : ℕ) : (lit n).isNonNegInt = true := by
  simp [lit, Value.isNonNegInt]

/-! ## Key order -/

theorem lookup_perm {l₁ l₂ : Row} (h : l₁.Perm l₂) (k : String) :
    (l₁.map Prod.fst).Nodup → l₁.lookup k = l₂.lookup k := by
  induction h with
  | nil => intro _; rfl
  | cons x _ ih =>
    intro nd
    obtain ⟨a, v⟩ := x
    rw [List.map_cons, List.nodup_cons] at nd
    by_cases hk : k = a
    · subst hk; simp [List.lookup]
    · have hk2 : (k == a) = false := by simpa using hk
      simp only [List.lookup, hk2]
      exact ih nd.2
  | swap x y l =>
    intro nd
    obtain ⟨a, v⟩ := x
    obtain ⟨b, w⟩ := y
    simp only [List.map_cons, List.nodup_cons, List.mem_cons, not_or] at nd
    have hab : b ≠ a := nd.1.1
    by_cases hka : k = a
    · subst hka
      have hkb : (k == b) = false := by simpa using fun h => hab h.symm
      simp [List.lookup, hkb]
    · have hka2 : (k == a) = false := by simpa using hka
      by_cases hkb : k = b
      · subst hkb; simp [List.lookup, hka2]
      · have hkb2 : (k == b) = false := by simpa using hkb
        simp [List.lookup, hka2, hkb2]
  | trans h₁ _ ih₁ ih₂ =>
    intro nd
    rw [ih₁ nd]
    exact ih₂ ((h₁.map Prod.fst).nodup_iff.mp nd)

theorem get_perm {l₁ l₂ : Row} (h : l₁.Perm l₂) (nd : (l₁.map Prod.fst).Nodup)
    (k : String) :
    l₁.get k = l₂.get k := by
  simp only [Row.get, lookup_perm h k nd]

/-! ## Resolution of the count fields -/

/-- C1 (as stated, refuted): with `Total Test Cases` = 0 and `Total Cases` = 50 the
highest-priority alias is present with the non-absent value 0, yet `totalCases` resolves
to 50, the value of the second alias. -/
theorem zero_cell_loses_to_lower_alias :
    (Row.get [("Total Cases", lit 50), ("Total Test Cases", lit 0)] "Total Test Cases").isAbsent
        = false ∧
      Row.get [("Total Cases", lit 50), ("Total Test Cases", lit 0)] "Total Test Cases" = lit 0 ∧
      (mapCSVColumns [("Total Cases", lit 50), ("Total Test Cases", lit 0)]).totalCases = lit 50 ∧
      (mapCSVColumns [("Total Cases", lit 50), ("Total Test Cases", lit 0)]).totalCases
        ≠ Row.get [("Total Cases", lit 50), ("Total Test Cases", lit 0)] "Total Test Cases" := by
  decide

/-- C1 (amended): every count field resolves to the value of the first alias, in the
priority order of the field, whose cell is truthy (neither absent, `null`, `0`, `NaN`, `false`
nor the empty string); reordering the keys of the record does not change the outcome. -/
theorem count_field_first_truthy_alias (row : Row) (f : CountField) (pre post : List String)
    (a : String) (hsplit : f.aliases = pre ++ a :: post)
    (hpre : ∀ b ∈ pre, (row.get b).truthy = false) (ha : (row.get a).truthy = true) :
    f.of (mapCSVColumns row) = row.get a ∧
      ∀ row' : Row, row'.Perm row → (row'.map Prod.fst).Nodup →
        f.of (mapCSVColumns row') = row.get a := by
  have key : f.of (mapCSVColumns row) = row.get a := by
    rw [count_resolve, hsplit]
    exact firstTruthy_split row.get _ a post pre hpre ha
  refine ⟨key, fun row' hperm nd => ?_⟩
  rw [← key, count_resolve, count_resolve]
  congr 1
  exact List.map_congr_left (fun k _ => get_perm hperm nd k)

/-- With `Total Test Cases` = 0, `Total Cases` = 50 and `Test Cases` = 70, in any key order,
`totalCases` is 50. -/
theorem count_field_first_truthy_alias_witness :
    CountField.totalCases.of (mapCSVColumns
        [("Test Cases", lit 70), ("Total Cases", lit 50), ("Total Test Cases", lit 0)])
        = Row.get [("Test Cases", lit 70), ("Total Cases", lit 50), ("Total Test Cases", lit 0)]
          "Total Cases" ∧
      ∀ row' : Row,
        row'.Perm [("Test Cases", lit 70), ("Total Cases", lit 50), ("Total Test Cases", lit 0)] →
        (row'.map Prod.fst).Nodup →
        CountField.totalCases.of (mapCSVColumns row')
          = Row.get [("Test Cases", lit 70), ("Total Cases", lit 50), ("Total Test Cases", lit 0)]
            "Total Cases" :=
  count_field_first_truthy_alias
    [("Test Cases", lit 70), ("Total Cases", lit 50), ("Total Test Cases", lit 0)]
    CountField.totalCases ["Total Test Cases"] ["Test Cases"] "Total Cases" rfl
    (by decide) (by decide)

/-- C2: when none of the aliases of a count field is a key of the record, the field
resolves to its default (144, 132, 117, 6, 10, 6, 2), whatever else the record holds. -/
theorem count_field_default_when_no_alias (row : Row) (f : CountField)
    (h : ∀ a ∈ f.aliases, row.lookup a = none) :
    f.of (mapCSVColumns row) = lit f.default ∧
      [CountField.totalCases.default, CountField.totalExecuted.default,
        CountField.totalPassed.default, CountField.totalFailed.default,
        CountField.needToRetest.default, CountField.yetToValidate.default,
        CountField.inProgress.default] = [144, 132, 117, 6, 10, 6, 2] := by
  refine ⟨?_, rfl⟩
  rw [count_resolve]
  apply firstTruthy_all_falsy
  intro v hv
  obtain ⟨a, ha, rfl⟩ := List.mem_map.mp hv
  rw [get_of_lookup_none (h a ha)]
  rfl

/-- A record with a total and an unrelated column gets `totalFailed` 6. -/
theorem count_field_default_when_no_alias_witness :
    (mapCSVColumns [("Total Test Cases", lit 100), ("Owner", Value.str "qa")]).totalFailed
      = lit 6 :=
  (count_field_default_when_no_alias [("Total Test Cases", lit 100), ("Owner", Value.str "qa")]
    CountField.totalFailed (by decide)).1

/-! ## Resolution of the rates -/

/-- C3 (as stated, refuted): with `% Execution` = "abc" and `Execution Rate` = 95 the first
alias that is present and parses is `Execution Rate`, yet `executionRate` is not 95 but the
ratio 132/144*100 of the defaulted counts. -/
theorem unparsable_first_rate_hides_second :
    parseFloat (unparsableFirstRate.get "% Execution") = JSNum.nan ∧
      Value.num (parseFloat (unparsableFirstRate.get "Execution Rate")) = lit 95 ∧
      (mapCSVColumns unparsableFirstRate).executionRate = Value.num (JSNum.fin (275 / 3)) ∧
      (mapCSVColumns unparsableFirstRate).executionRate ≠ lit 95 := by
  have h : parseFloat (unparsableFirstRate.get "% Execution"
      ||| unparsableFirstRate.get "Execution Rate"
      ||| unparsableFirstRate.get "Execution %") = JSNum.nan := by decide
  have h1 : (mapCSVColumns unparsableFirstRate).totalExecuted = lit 132 := by decide
  have h2 : (mapCSVColumns unparsableFirstRate).totalCases = lit 144 := by decide
  have key : (mapCSVColumns unparsableFirstRate).executionRate
      = Value.num (JSNum.fin (275 / 3)) := by
    rw [mapCSVColumns_executionRate, h, h1, h2]
    simp only [JSNum.truthy, ratio100, toNumber, lit, JSNum.div, JSNum.mul]
    norm_num
  refine ⟨by decide, by decide, key, ?_⟩
  rw [key]
  simp only [lit, ne_eq, Value.num.injEq, JSNum.fin.injEq]
  norm_num

/-- C3 (amended): `executionRate` is `parseFloat` of the first truthy cell among `% Execution`,
`Execution Rate`, `Execution %` when that parse is a non-zero number, and
totalExecuted/totalCases*100 of the resolved counts in every other case (no truthy cell, or
the first truthy cell parses to `NaN` or 0); `passRate` likewise over `% Passed`, `Pass Rate`,
`Pass %` with totalPassed/totalExecuted*100.  A record holding only `Pass %` = "95" gets
`passRate` 95 and not 117/132*100. -/
theorem explicit_rate_else_ratio (row : Row) :
    (∀ (pre post : List String) (a : String), executionRateAliases = pre ++ a :: post →
        (∀ b ∈ pre, (row.get b).truthy = false) → (row.get a).truthy = true →
        (mapCSVColumns row).executionRate =
          if (parseFloat (row.get a)).truthy = true then Value.num (parseFloat (row.get a))
          else ratio100 (mapCSVColumns row).totalExecuted (mapCSVColumns row).totalCases) ∧
      ((∀ b ∈ executionRateAliases, (row.get b).truthy = false) →
        (mapCSVColumns row).executionRate =
          ratio100 (mapCSVColumns row).totalExecuted (mapCSVColumns row).totalCases) ∧
      (∀ (pre post : List String) (a : String), passRateAliases = pre ++ a :: post →
        (∀ b ∈ pre, (row.get b).truthy = false) → (row.get a).truthy = true →
        (mapCSVColumns row).passRate =
          if (parseFloat (row.get a)).truthy = true then Value.num (parseFloat (row.get a))
          else ratio100 (mapCSVColumns row).totalPassed (mapCSVColumns row).totalExecuted) ∧
      ((∀ b ∈ passRateAliases, (row.get b).truthy = false) →
        (mapCSVColumns row).passRate =
          ratio100 (mapCSVColumns row).totalPassed (mapCSVColumns row).totalExecuted) ∧
      (mapCSVColumns scenarioC).passRate = lit 95 ∧
      (mapCSVColumns scenarioC).passRate ≠ ratio100 (lit 117) (lit 132) := by
  have hC : (mapCSVColumns scenarioC).passRate = lit 95 := by
    have h : scanSigned ("95".toList.dropWhile isStrWhiteSpaceChar)
        = some (NumToken.decimal false ⟨95, 0, 0⟩, []) := by decide
    have hg : (scenarioC.get "% Passed" ||| scenarioC.get "Pass Rate" ||| scenarioC.get "Pass %")
        = Value.str "95" := by decide
    rw [mapCSVColumns_passRate, hg]
    simp only [parseFloat, parseFloatStr, h, NumToken.value, Decimal.value, JSNum.truthy, lit]
    norm_num
  refine ⟨?_, ?_, ?_, ?_, hC, ?_⟩
  · intro pre post a hsplit hpre ha
    rw [mapCSVColumns_executionRate, hOr3_split row.get _ _ _ pre post a hsplit hpre ha]
  · intro h
    have hf := hOr3_falsy _ _ _ (h "% Execution" (by simp [executionRateAliases]))
      (h "Execution Rate" (by simp [executionRateAliases]))
      (h "Execution %" (by simp [executionRateAliases]))
    rw [mapCSVColumns_executionRate, parseFloat_falsy hf]
    simp
  · intro pre post a hsplit hpre ha
    rw [mapCSVColumns_passRate, hOr3_split row.get _ _ _ pre post a hsplit hpre ha]
  · intro h
    have hf := hOr3_falsy _ _ _ (h "% Passed" (by simp [passRateAliases]))
      (h "Pass Rate" (by simp [passRateAliases])) (h "Pass %" (by simp [passRateAliases]))
    rw [mapCSVColumns_passRate, parseFloat_falsy hf]
    simp
  · rw [hC]
    simp only [lit, ratio100, toNumber, JSNum.div, JSNum.mul, ne_eq, Value.num.injEq]
    norm_num

/-- With `% Execution` empty and `Execution %` = "91.5%" the third alias is the one parsed. -/
theorem explicit_rate_else_ratio_witness :
    (mapCSVColumns percentSuffixedRate).executionRate =
      if (parseFloat (percentSuffixedRate.get "Execution %")).truthy = true then
        Value.num (parseFloat (percentSuffixedRate.get "Execution %"))
      else ratio100 (mapCSVColumns percentSuffixedRate).totalExecuted
        (mapCSVColumns percentSuffixedRate).totalCases :=
  (explicit_rate_else_ratio percentSuffixedRate).1 ["% Execution", "Execution Rate"] []
    "Execution %" rfl (by decide) (by decide)

/-- C4: `retestRate` is needToRetest/totalCases*100 and `validationRate` is
yetToValidate/totalCases*100 over the counts of the same result, and two records that agree
on the count aliases of these three fields get the same two rates, whatever other columns
(a `Retest Rate` or `Validation Rate` column, say) they hold. -/
theorem retest_validation_rates_from_counts (row : Row) :
    (mapCSVColumns row).retestRate =
        Value.num (((toNumber (mapCSVColumns row).needToRetest).div
          (toNumber (mapCSVColumns row).totalCases)).mul (JSNum.fin 100)) ∧
      (mapCSVColumns row).validationRate =
        Value.num (((toNumber (mapCSVColumns row).yetToValidate).div
          (toNumber (mapCSVColumns row).totalCases)).mul (JSNum.fin 100)) ∧
      ∀ row' : Row,
        (∀ a ∈ CountField.needToRetest.aliases ++ CountField.yetToValidate.aliases
            ++ CountField.totalCases.aliases, row'.get a = row.get a) →
        (mapCSVColumns row').retestRate = (mapCSVColumns row).retestRate ∧
          (mapCSVColumns row').validationRate = (mapCSVColumns row).validationRate := by
  refine ⟨mapCSVColumns_retestRate row, mapCSVColumns_validationRate row, fun row' h => ?_⟩
  have hr : (mapCSVColumns row').needToRetest = (mapCSVColumns row).needToRetest :=
    count_congr CountField.needToRetest (fun a ha => h a (by simp [ha]))
  have hv : (mapCSVColumns row').yetToValidate = (mapCSVColumns row).yetToValidate :=
    count_congr CountField.yetToValidate (fun a ha => h a (by simp [ha]))
  have ht : (mapCSVColumns row').totalCases = (mapCSVColumns row).totalCases :=
    count_congr CountField.totalCases (fun a ha => h a (by simp [ha]))
  rw [mapCSVColumns_retestRate, mapCSVColumns_validationRate, mapCSVColumns_retestRate row,
    mapCSVColumns_validationRate row, hr, hv, ht]
  exact ⟨rfl, rfl⟩

/-- Adding `Retest Rate` and `Validation Rate` columns to scenario A changes neither rate. -/
theorem retest_validation_rates_from_counts_witness :
    (mapCSVColumns (("Retest Rate", lit 55) :: ("Validation Rate", lit 66) :: scenarioA)).retestRate
        = (mapCSVColumns scenarioA).retestRate ∧
      (mapCSVColumns (("Retest Rate", lit 55) :: ("Validation Rate", lit 66)
        :: scenarioA)).validationRate = (mapCSVColumns scenarioA).validationRate :=
  (retest_validation_rates_from_counts scenarioA).2.2
    (("Retest Rate", lit 55) :: ("Validation Rate", lit 66) :: scenarioA) (by decide)

/-! ## Zero denominators -/

/-- C5 (the code departs from it): a `Total Test Cases` cell written `+0` reaches
`mapCSVColumns` as the non-empty string "+0".  It is truthy, so it is the resolved
`totalCases` and passes the guard of `executionRate`; its numeric value is 0, so
`executionRate`, `retestRate` and `validationRate` are all `Infinity` instead of 0.  In the
same way a `Total Executed` cell written `+0` makes `passRate` `Infinity`. -/
theorem plus_zero_denominator_gives_infinite_rates :
    (mapCSVColumns plusZeroTotal).totalCases = Value.str "+0" ∧
      (mapCSVColumns plusZeroTotal).totalCases.truthy = true ∧
      toNumber (mapCSVColumns plusZeroTotal).totalCases = JSNum.fin 0 ∧
      (mapCSVColumns plusZeroTotal).executionRate = Value.num JSNum.posInf ∧
      (mapCSVColumns plusZeroTotal).retestRate = Value.num JSNum.posInf ∧
      (mapCSVColumns plusZeroTotal).validationRate = Value.num JSNum.posInf ∧
      (mapCSVColumns plusZeroExecuted).totalExecuted = Value.str "+0" ∧
      toNumber (mapCSVColumns plusZeroExecuted).totalExecuted = JSNum.fin 0 ∧
      (mapCSVColumns plusZeroExecuted).passRate = Value.num JSNum.posInf := by
  have h0 : stringToNumber "+0" = JSNum.fin 0 := by
    have h : scanSigned ['+', '0'] = some (NumToken.decimal false ⟨0, 0, 0⟩, []) := by decide
    simp [stringToNumber, isStrWhiteSpaceChar, h, NumToken.value, Decimal.value]
  have ht : (mapCSVColumns plusZeroTotal).totalCases = Value.str "+0" := by decide
  have he : (mapCSVColumns plusZeroTotal).totalExecuted = lit 132 := by decide
  have hr : (mapCSVColumns plusZeroTotal).needToRetest = lit 10 := by decide
  have hv : (mapCSVColumns plusZeroTotal).yetToValidate = lit 6 := by decide
  have hx : parseFloat (plusZeroTotal.get "% Execution" ||| plusZeroTotal.get "Execution Rate"
      ||| plusZeroTotal.get "Execution %") = JSNum.nan := by decide
  have ht' : (mapCSVColumns plusZeroExecuted).totalExecuted = Value.str "+0" := by decide
  have hp' : (mapCSVColumns plusZeroExecuted).totalPassed = lit 117 := by decide
  have hx' : parseFloat (plusZeroExecuted.get "% Passed" ||| plusZeroExecuted.get "Pass Rate"
      ||| plusZeroExecuted.get "Pass %") = JSNum.nan := by decide
  refine ⟨ht, by decide, ?_, ?_, ?_, ?_, ht', ?_, ?_⟩
  · rw [ht]
    exact h0
  · rw [mapCSVColumns_executionRate, hx, ht, he]
    simp [JSNum.truthy, ratio100, toNumber, h0, lit, JSNum.div, JSNum.mul]
  · rw [mapCSVColumns_retestRate, ht, hr]
    simp [ratio100, toNumber, h0, lit, JSNum.div, JSNum.mul]
  · rw [mapCSVColumns_validationRate, ht, hv]
    simp [ratio100, toNumber, h0, lit, JSNum.div, JSNum.mul]
  · rw [ht']
    exact h0
  · rw [mapCSVColumns_passRate, hx', ht', hp']
    simp [JSNum.truthy, ratio100, toNumber, h0, lit, JSNum.div, JSNum.mul]

/-! ## Strings under count aliases -/

/-- C6 (as stated, refuted): with `Total Test Cases` = "abc" and `Total Cases` = 50 the
unparsable cell is not passed over: `totalCases` is the string "abc", not 50; and with
`Total Test Cases` = "100" the field is the string "100", not the number 100. -/
theorem string_total_is_not_parsed :
    stringToNumber "abc" = JSNum.nan ∧ parseFloatStr "abc" = JSNum.nan ∧
      (mapCSVColumns unparsableTotal).totalCases = Value.str "abc" ∧
      (mapCSVColumns unparsableTotal).totalCases ≠ lit 50 ∧
      (mapCSVColumns numericStringTotal).totalCases = Value.str "100" ∧
      (mapCSVColumns numericStringTotal).totalCases ≠ lit 100 := by
  decide

/-- C6 (amended): a non-empty string under an alias of a count field is taken as it is,
whether or not it parses as a number: when no alias of higher priority holds a truthy cell
the field resolves to that very string. -/
theorem string_count_cell_kept_verbatim (row : Row) (f : CountField) (pre post : List String)
    (a s : String) (hsplit : f.aliases = pre ++ a :: post)
    (hpre : ∀ b ∈ pre, (row.get b).truthy = false) (hs : row.get a = Value.str s)
    (hne : s ≠ "") : f.of (mapCSVColumns row) = Value.str s := by
  rw [count_resolve, hsplit, ← hs]
  apply firstTruthy_split row.get _ a post pre hpre
  rw [hs]
  simp [Value.truthy, hne]

/-- The string "abc" under `Total Test Cases` is the resolved `totalCases`. -/
theorem string_count_cell_kept_verbatim_witness :
    CountField.totalCases.of (mapCSVColumns unparsableTotal) = Value.str "abc" :=
  string_count_cell_kept_verbatim unparsableTotal CountField.totalCases [] ["Total Cases",
    "Test Cases"] "Total Test Cases" "abc" rfl (by decide) (by decide) (by decide)

/-! ## Records without recognised columns -/

/-- C7 (as stated, refuted): on the empty record the counts are the defaults but
`executionRate` is 132/144*100 = 275/3, not the 91.67 of `defaultData`, so the result is not
`defaultData`. -/
theorem empty_record_is_not_defaultData :
    (mapCSVColumns []).executionRate = Value.num (JSNum.fin (275 / 3)) ∧
      defaultData.executionRate = Value.num (JSNum.fin (9167 / 100)) ∧
      mapCSVColumns [] ≠ defaultData := by
  have h1 : (mapCSVColumns []).executionRate = Value.num (JSNum.fin (275 / 3)) := by
    rw [mapCSVColumns_nil]
    rfl
  refine ⟨h1, rfl, fun h => ?_⟩
  rw [h] at h1
  simp only [defaultData, Value.num.injEq, JSNum.fin.injEq] at h1
  norm_num at h1

/-- C7 (amended): a record with none of the recognised columns gets the seven default counts
(144, 132, 117, 6, 10, 6, 2) and the four rates as the unrounded ratios 275/3, 975/11, 125/18
and 25/6, each of which is within 0.005 of the two-decimal rate of `defaultData` (91.67, 88.64,
6.94, 4.17). -/
theorem no_recognised_column_gives_unrounded_defaults (row : Row)
    (h : ∀ a ∈ recognisedColumns, row.lookup a = none) :
    mapCSVColumns row = unroundedDefaults ∧
      (∀ f : CountField, f.of (mapCSVColumns row) = f.of defaultData) ∧
      (mapCSVColumns row).executionRate = Value.num (JSNum.fin (275 / 3)) ∧
      (mapCSVColumns row).passRate = Value.num (JSNum.fin (975 / 11)) ∧
      (mapCSVColumns row).retestRate = Value.num (JSNum.fin (125 / 18)) ∧
      (mapCSVColumns row).validationRate = Value.num (JSNum.fin (25 / 6)) ∧
      Value.within (1 / 200) (mapCSVColumns row).executionRate defaultData.executionRate = true ∧
      Value.within (1 / 200) (mapCSVColumns row).passRate defaultData.passRate = true ∧
      Value.within (1 / 200) (mapCSVColumns row).retestRate defaultData.retestRate = true ∧
      Value.within (1 / 200) (mapCSVColumns row).validationRate defaultData.validationRate
        = true := by
  have hm : mapCSVColumns row = unroundedDefaults := by
    rw [← mapCSVColumns_nil]
    apply mapCSVColumns_congr
    intro a ha
    rw [get_of_lookup_none (h a ha)]
    rfl
  rw [hm]
  refine ⟨rfl, fun f => by cases f <;> rfl, rfl, rfl, rfl, rfl, ?_, ?_, ?_, ?_⟩ <;>
    · simp only [unroundedDefaults, defaultData, Value.within, decide_eq_true_eq]
      rw [abs_lt]
      constructor <;> norm_num

/-- A record with only unrecognised columns gets the unrounded defaults. -/
theorem no_recognised_column_gives_unrounded_defaults_witness :
    mapCSVColumns [("Owner", Value.str "qa"), ("Build", lit 7)] = unroundedDefaults :=
  (no_recognised_column_gives_unrounded_defaults [("Owner", Value.str "qa"), ("Build", lit 7)]
    (by decide)).1

/-! ## Scenario A -/

/-- C8: a record whose recognised columns are exactly `Total Test Cases` = c,
`Total Executed` = e, `Total Passed` = p and `Total Failed` = f, all positive numbers, gets
these four counts, the defaults 10, 6, 2 for the other three, and as rates the values of the
expressions `(e / c) * 100`, `(p / e) * 100`, `(10 / c) * 100` and `(6 / c) * 100` in the
arithmetic of the code; for scenario A (100, 80, 70, 10) these are 80, 87.5, 10 and 6. -/
theorem four_positive_counts (row : Row) (c e p f : ℚ) (hc : 0 < c) (he : 0 < e) (hp : 0 < p)
    (hf : 0 < f) (h1 : row.get "Total Test Cases" = Value.num (JSNum.fin c))
    (h2 : row.get "Total Executed" = Value.num (JSNum.fin e))
    (h3 : row.get "Total Passed" = Value.num (JSNum.fin p))
    (h4 : row.get "Total Failed" = Value.num (JSNum.fin f))
    (hrest : ∀ a ∈ recognisedColumns,
      a ∉ ["Total Test Cases", "Total Executed", "Total Passed", "Total Failed"] →
        row.lookup a = none) :
    mapCSVColumns row =
        { totalCases := Value.num (JSNum.fin c)
          totalExecuted := Value.num (JSNum.fin e)
          totalPassed := Value.num (JSNum.fin p)
          totalFailed := Value.num (JSNum.fin f)
          needToRetest := lit 10
          yetToValidate := lit 6
          inProgress := lit 2
          executionRate := Value.num (((JSNum.fin e).div (JSNum.fin c)).mul (JSNum.fin 100))
          passRate := Value.num (((JSNum.fin p).div (JSNum.fin e)).mul (JSNum.fin 100))
          retestRate := Value.num (((JSNum.fin 10).div (JSNum.fin c)).mul (JSNum.fin 100))
          validationRate :=
            Value.num (((JSNum.fin 6).div (JSNum.fin c)).mul (JSNum.fin 100)) } ∧
      mapCSVColumns scenarioA =
        { totalCases := lit 100
          totalExecuted := lit 80
          totalPassed := lit 70
          totalFailed := lit 10
          needToRetest := lit 10
          yetToValidate := lit 6
          inProgress := lit 2
          executionRate := lit 80
          passRate := Value.num (JSNum.fin (175 / 2))
          retestRate := lit 10
          validationRate := lit 6 } := by
  constructor
  · rw [← mapCSVColumns_fourCounts c e p f hc.ne' he.ne' hp.ne' hf.ne']
    apply mapCSVColumns_congr
    intro a ha
    by_cases hm : a ∈ ["Total Test Cases", "Total Executed", "Total Passed", "Total Failed"]
    · simp only [List.mem_cons, List.mem_singleton, List.not_mem_nil, or_false] at hm
      rcases hm with rfl | rfl | rfl | rfl
      · rw [h1]; rfl
      · rw [h2]; rfl
      · rw [h3]; rfl
      · rw [h4]; rfl
    · rw [get_of_lookup_none (hrest a ha hm)]
      simp only [List.mem_cons, List.mem_singleton, List.not_mem_nil, or_false, not_or] at hm
      obtain ⟨n1, n2, n3, n4⟩ := hm
      have b1 : (a == "Total Test Cases") = false := by simpa using n1
      have b2 : (a == "Total Executed") = false := by simpa using n2
      have b3 : (a == "Total Passed") = false := by simpa using n3
      have b4 : (a == "Total Failed") = false := by simpa using n4
      simp only [fourCounts, Row.get, List.lookup, b1, b2, b3, b4]
  · have hA : scenarioA = fourCounts 100 80 70 10 := by
      simp [scenarioA, fourCounts, lit]
    rw [hA, mapCSVColumns_fourCounts 100 80 70 10 (by norm_num) (by norm_num) (by norm_num)
      (by norm_num)]
    simp only [lit, JSNum.div, JSNum.mul, Metrics.mk.injEq, Value.num.injEq, JSNum.fin.injEq]
    norm_num

/-- Scenario A with an unrecognised column added: the counts 100, 80, 70, 10, the defaults
10, 6, 2 and the rates 80, 87.5, 10 and 6. -/
theorem four_positive_counts_witness :
    mapCSVColumns (("Owner", Value.str "qa") :: scenarioA) =
      { totalCases := lit 100
        totalExecuted := lit 80
        totalPassed := lit 70
        totalFailed := lit 10
        needToRetest := lit 10
        yetToValidate := lit 6
        inProgress := lit 2
        executionRate := lit 80
        passRate := Value.num (JSNum.fin (175 / 2))
        retestRate := lit 10
        validationRate := lit 6 } := by
  rw [(four_positive_counts (("Owner", Value.str "qa") :: scenarioA) 100 80 70 10 (by norm_num)
    (by norm_num) (by norm_num) (by norm_num) (by decide) (by decide) (by decide) (by decide)
    (by decide)).1]
  simp only [lit, JSNum.div, JSNum.mul, Metrics.mk.injEq, Value.num.injEq, JSNum.fin.injEq]
  norm_num

/-! ## Zero data rows -/

/-- C9 (as stated, refuted): a dashboard showing the metrics of scenario A still shows them
after a manual upload that parses to zero rows, and they are not the default metrics. -/
theorem empty_upload_keeps_previous_metrics :
    (handleFileUploadComplete showingScenarioA noRows).currentData = mapCSVColumns scenarioA ∧
      (mapCSVColumns scenarioA).totalCases = lit 100 ∧
      (handleFileUploadComplete showingScenarioA noRows).currentData ≠ defaultData := by
  have h : (handleFileUploadComplete showingScenarioA noRows).currentData
      = mapCSVColumns scenarioA := rfl
  have ht : (mapCSVColumns scenarioA).totalCases = lit 100 := by decide
  refine ⟨h, ht, fun hd => ?_⟩
  rw [h] at hd
  rw [hd] at ht
  revert ht
  decide

/-- C9 (amended): when parsing completes with zero data rows, the fetched document leaves the
dashboard holding `defaultData`, whereas a manual upload leaves the held metrics untouched:
the dashboard shows what it showed before, which is `defaultData` only when nothing had been
loaded. -/
theorem zero_rows_fetch_defaults_upload_unchanged (s : DashboardState) (results : ParseResults)
    (h : results.data = []) :
    (loadCSVDataComplete s results).data = some defaultData ∧
      (loadCSVDataComplete s results).currentData = defaultData ∧
      (handleFileUploadComplete s results).data = s.data ∧
      (handleFileUploadComplete s results).currentData = s.currentData ∧
      (s.data = none → (handleFileUploadComplete s results).currentData = defaultData) := by
  have hl : loadCSVDataComplete s results
      = { s with data := some defaultData, loading := false } := by
    simp [loadCSVDataComplete, h]
  have hu : handleFileUploadComplete s results = { s with loading := false } := by
    simp [handleFileUploadComplete, h]
  rw [hl, hu]
  refine ⟨rfl, rfl, rfl, rfl, fun hn => ?_⟩
  simp [DashboardState.currentData, hn]

/-- Zero rows while the dashboard shows scenario A: the fetch resets, the upload does not. -/
theorem zero_rows_fetch_defaults_upload_unchanged_witness :
    (loadCSVDataComplete showingScenarioA noRows).data = some defaultData ∧
      (loadCSVDataComplete showingScenarioA noRows).currentData = defaultData ∧
      (handleFileUploadComplete showingScenarioA noRows).data = showingScenarioA.data ∧
      (handleFileUploadComplete showingScenarioA noRows).currentData
        = showingScenarioA.currentData ∧
      (showingScenarioA.data = none →
        (handleFileUploadComplete showingScenarioA noRows).currentData = defaultData) :=
  zero_rows_fetch_defaults_upload_unchanged showingScenarioA noRows rfl

/-! ## Range of the counts -/

/-- C10 (as stated, refuted): with `Total Failed` = -5 the resolved `totalFailed` is -5,
which is not an integer greater than or equal to 0. -/
theorem negative_cell_gives_negative_count :
    (mapCSVColumns negativeFailed).totalFailed = Value.num (JSNum.fin (-5)) ∧
      (mapCSVColumns negativeFailed).totalFailed.isNonNegInt = false := by
  have h : (mapCSVColumns negativeFailed).totalFailed = Value.num (JSNum.fin (-5)) := by
    simp [mapCSVColumns_totalFailed, negativeFailed, Row.get, List.lookup, hOr_eq,
      Value.truthy, JSNum.truthy]
  refine ⟨h, ?_⟩
  rw [h]
  simp [Value.isNonNegInt]

/-- C10 (amended): over a record in which every cell under a count alias is absent or an
integer greater than or equal to 0, each of the seven count fields of the result is an integer
greater than or equal to 0. -/
theorem nonneg_int_cells_give_nonneg_int_counts (row : Row)
    (h : ∀ f : CountField, ∀ a ∈ f.aliases,
      (row.get a).isAbsent = true ∨ (row.get a).isNonNegInt = true)
    (f : CountField) : (f.of (mapCSVColumns row)).isNonNegInt = true := by
  rw [count_resolve]
  apply firstTruthy_induct (fun v => v.isNonNegInt = true) _ (lit_isNonNegInt _)
  intro v hv ht
  obtain ⟨a, ha, rfl⟩ := List.mem_map.mp hv
  rcases h f a ha with habs | hint
  · generalize row.get a = w at habs ht
    cases w <;> simp_all [Value.isAbsent, Value.truthy]
  · exact hint

/-- Scenario A has non-negative integer cells, so its `totalFailed` is one. -/
theorem nonneg_int_cells_give_nonneg_int_counts_witness :
    (CountField.totalFailed.of (mapCSVColumns scenarioA)).isNonNegInt = true :=
  nonneg_int_cells_give_nonneg_int_counts scenarioA
    (by intro f; cases f <;> simp [CountField.aliases, scenarioA, Row.get, List.lookup,
      Value.isAbsent, Value.isNonNegInt, lit])
    CountField.totalFailed

/-! ## The chart series -/

theorem mathMax_zero_fin (b : ℚ) :
    mathMax (JSNum.fin 0) (JSNum.fin b) = JSNum.fin (max 0 b) := rfl

theorem mathMax_zero_not_negative (x : JSNum) :
    (Value.num (mathMax (JSNum.fin 0) x)).isNegative = false := by
  cases x with
  | fin b => simp [mathMax, Value.isNegative]
  | nan => rfl
  | posInf => rfl
  | negInf => simp [mathMax, Value.isNegative]

theorem chartValue_bar_pending (m : Metrics) :
    chartValue (barChartData m) "Pending" = some (Value.num (mathMax (JSNum.fin 0)
      (((toNumber m.totalCases).sub (toNumber m.totalExecuted)).sub
        (toNumber m.yetToValidate)))) := by
  rfl

/-- C11: the two chart series are equal and list Passed, Failed, In Progress, Need to Retest,
Yet to Validate, Pending in this order; their `Pending` entry is
`Math.max(0, totalCases - totalExecuted - yetToValidate)`, which is never negative and, over
numeric counts c, e, v, is max(0, c - e - v); for 144, 132 and 6 it is 6. -/
theorem pending_is_clamped_difference (m : Metrics) :
    barChartData m = pieData m ∧
      (barChartData m).map ChartEntry.name
        = ["Passed", "Failed", "In Progress", "Need to Retest", "Yet to Validate", "Pending"] ∧
      chartValue (barChartData m) "Pending" = some (Value.num (mathMax (JSNum.fin 0)
        (((toNumber m.totalCases).sub (toNumber m.totalExecuted)).sub
          (toNumber m.yetToValidate)))) ∧
      chartValue (pieData m) "Pending" = chartValue (barChartData m) "Pending" ∧
      (∀ w : Value, chartValue (barChartData m) "Pending" = some w → w.isNegative = false) ∧
      (∀ c e v : ℚ, m.totalCases = Value.num (JSNum.fin c) →
        m.totalExecuted = Value.num (JSNum.fin e) → m.yetToValidate = Value.num (JSNum.fin v) →
        chartValue (barChartData m) "Pending" = some (Value.num (JSNum.fin (max 0 (c - e - v)))) ∧
          chartValue (pieData m) "Pending"
            = some (Value.num (JSNum.fin (max 0 (c - e - v))))) ∧
      chartValue (barChartData defaultData) "Pending" = some (lit 6) := by
  have hp : pieData m = barChartData m := rfl
  refine ⟨rfl, rfl, chartValue_bar_pending m, by rw [hp], ?_, ?_, ?_⟩
  · intro w hw
    rw [chartValue_bar_pending, Option.some.injEq] at hw
    rw [← hw]
    exact mathMax_zero_not_negative _
  · intro c e v hc he hv
    rw [hp, chartValue_bar_pending, hc, he, hv]
    exact ⟨rfl, rfl⟩
  · rw [chartValue_bar_pending]
    simp only [defaultData, lit, toNumber, JSNum.sub, mathMax, Option.some.injEq,
      Value.num.injEq, JSNum.fin.injEq]
    norm_num

/-- With 150 cases, 132 executed and 6 to validate, both series show max(0, 150 - 132 - 6). -/
theorem pending_is_clamped_difference_witness :
    chartValue (barChartData (metricsWith 150 132 6)) "Pending"
        = some (Value.num (JSNum.fin (max 0 (150 - 132 - 6)))) ∧
      chartValue (pieData (metricsWith 150 132 6)) "Pending"
        = some (Value.num (JSNum.fin (max 0 (150 - 132 - 6)))) :=
  (pending_is_clamped_difference (metricsWith 150 132 6)).2.2.2.2.2.1 150 132 6 rfl rfl rfl

/-! ## Unrecognised columns -/

/-- C12: two records that agree on the value, or absence, of every recognised alias column
get equal metrics in all eleven fields, whatever other columns they hold; `mapCSVColumns` is
a total function, so no record makes the resolution fail. -/
theorem unrecognised_columns_are_ignored (row row' : Row)
    (h : ∀ a ∈ recognisedColumns, row'.lookup a = row.lookup a) :
    mapCSVColumns row' = mapCSVColumns row := by
  apply mapCSVColumns_congr
  intro a ha
  simp only [Row.get, h a ha]

/-- Scenario A with an owner, a build number and a free-text column added resolves as
scenario A. -/
theorem unrecognised_columns_are_ignored_witness :
    mapCSVColumns (("Owner", Value.str "qa") :: ("Build", lit 7)
        :: (scenarioA ++ [("Retest Rate", Value.str "n/a")])) = mapCSVColumns scenarioA :=
  unrecognised_columns_are_ignored scenarioA
    (("Owner", Value.str "qa") :: ("Build", lit 7)
      :: (scenarioA ++ [("Retest Rate", Value.str "n/a")])) (by decide)

/-! ## Zero cells -/

theorem firstTruthy_congr_falsy (g g' : String → Value) (d : Value) :
    ∀ names : List String,
      (∀ a ∈ names, g' a = g a ∨ ((g a).truthy = false ∧ (g' a).truthy = false)) →
      firstTruthy (names.map g') d = firstTruthy (names.map g) d
  | [], _ => rfl
  | a :: names, h => by
    have ih := firstTruthy_congr_falsy g g' d names
      (fun b hb => h b (List.mem_cons_of_mem a hb))
    rcases h a (List.mem_cons_self a names) with heq | ⟨h1, h2⟩
    · simp only [List.map_cons, firstTruthy, heq, ih]
    · simp only [List.map_cons, firstTruthy, h1, h2, ih]
      rfl

/-- Over cells that are numbers or absent every count resolves to a number other than 0
and `NaN`. -/
theorem count_number_nonzero (row : Row) (f : CountField)
    (h : ∀ a ∈ f.aliases, (row.get a).isNumberOrAbsent = true) :
    ∃ x : JSNum,
      f.of (mapCSVColumns row) = Value.num x ∧ x ≠ JSNum.fin 0 ∧ x ≠ JSNum.nan := by
  rw [count_resolve]
  apply firstTruthy_induct
    (fun v => ∃ x : JSNum, v = Value.num x ∧ x ≠ JSNum.fin 0 ∧ x ≠ JSNum.nan)
  · refine ⟨JSNum.fin f.default, rfl, ?_, by simp⟩
    have hd := default_ne_zero f
    simpa using hd
  · intro v hv ht
    obtain ⟨a, ha, rfl⟩ := List.mem_map.mp hv
    have hfa := h a ha
    generalize row.get a = w at hfa ht
    cases w with
    | undefined => simp [Value.truthy] at ht
    | null => simp [Value.truthy] at ht
    | bool b => simp [Value.isNumberOrAbsent] at hfa
    | str s => simp [Value.isNumberOrAbsent] at hfa
    | num x =>
      refine ⟨x, rfl, ?_, ?_⟩
      · rintro rfl
        simp [Value.truthy, JSNum.truthy] at ht
      · rintro rfl
        simp [Value.truthy, JSNum.truthy] at ht

/-- C13: over a record whose count cells are numbers or absent, every count field resolves to
a number other than 0: a cell holding 0 is passed over exactly like a missing one (removing it
from the record changes nothing), the defaults are non-zero, and so `totalCases` and
`totalExecuted`, the denominators of the four ratios, are never 0; `Total Failed` = 0 alone
gives `totalFailed` 6. -/
theorem zero_cells_are_skipped (row : Row)
    (h : ∀ f : CountField, ∀ a ∈ f.aliases, (row.get a).isNumberOrAbsent = true) :
    (∀ f : CountField, ∃ x : JSNum,
        f.of (mapCSVColumns row) = Value.num x ∧ x ≠ JSNum.fin 0 ∧ x ≠ JSNum.nan) ∧
      (∀ f : CountField, f.default ≠ 0) ∧
      toNumber (mapCSVColumns row).totalCases ≠ JSNum.fin 0 ∧
      toNumber (mapCSVColumns row).totalExecuted ≠ JSNum.fin 0 ∧
      (∀ (f : CountField) (row' : Row),
        (∀ a ∈ f.aliases,
          row'.get a = row.get a ∨ (row.get a = lit 0 ∧ row'.lookup a = none)) →
        f.of (mapCSVColumns row') = f.of (mapCSVColumns row)) ∧
      (mapCSVColumns zeroFailed).totalFailed = lit 6 := by
  refine ⟨fun f => count_number_nonzero row f (h f), default_ne_zero, ?_, ?_, ?_, by decide⟩
  · obtain ⟨x, hx, h0, -⟩ := count_number_nonzero row CountField.totalCases (h _)
    simp only [CountField.of] at hx
    rw [hx]
    exact h0
  · obtain ⟨x, hx, h0, -⟩ := count_number_nonzero row CountField.totalExecuted (h _)
    simp only [CountField.of] at hx
    rw [hx]
    exact h0
  · intro f row' hrow
    rw [count_resolve, count_resolve]
    apply firstTruthy_congr_falsy
    intro a ha
    rcases hrow a ha with heq | ⟨hz, hn⟩
    · exact Or.inl heq
    · refine Or.inr ⟨?_, ?_⟩
      · rw [hz]
        simp [lit, Value.truthy, JSNum.truthy]
      · rw [get_of_lookup_none hn]
        rfl

/-- Zeros under `Total Test Cases` and `Total Cases` and 70 under `Test Cases`: the total is
not 0, and it is what the record without the two zero cells gives. -/
theorem zero_cells_are_skipped_witness :
    toNumber (mapCSVColumns zerosThenSeventy).totalCases ≠ JSNum.fin 0 ∧
      CountField.totalCases.of (mapCSVColumns [("Test Cases", lit 70)])
        = CountField.totalCases.of (mapCSVColumns zerosThenSeventy) :=
  ⟨(zero_cells_are_skipped zerosThenSeventy (by intro f; cases f <;> decide)).2.2.1,
    (zero_cells_are_skipped zerosThenSeventy (by intro f; cases f <;> decide)).2.2.2.2.1
      CountField.totalCases [("Test Cases", lit 70)] (by decide)⟩

end QADashboard
